import Mathlib

/-!
Verification development for the json-schema-rs validation engine.

The Rust sources are shallowly embedded: JSON values become an inductive
type, `f64` numbers are modelled as rationals (only order comparisons occur
in the validators, so the embedding is order-faithful for every finite
float), Rust `usize` becomes `Nat`, `Option<T>` becomes `Option`, and the
`unimplemented!()` panic in reference resolution is modelled by the error
branch of an `Except Unit` result.  Rust `str::len()` is the UTF-8 byte
count, embedded as `String.utf8ByteSize`.  The regex engine and the
format recognizers (chrono, url, std address parsing) are external
collaborators of the core; they are passed in as a `Collab` record of
boolean-valued functions, exactly the capability surface the core uses.
-/

/-- JSON values, mirroring the parsed value tree the validators consume
(serde_json::Value).  Objects are modelled as their ordered entry list;
numbers as rationals. -/
inductive Value where
  | null : Value
  | bool (b : Bool) : Value
  | num (q : Rat) : Value
  | str (s : String) : Value
  | arr (items : List Value) : Value
  | obj (entries : List (String × Value)) : Value

mutual

/-- Deep equality on JSON values, mirroring the derived `PartialEq` used by
`*contained == item` in `ArraySchema::validate_unique`. -/
def Value.beq : Value → Value → Bool
  | Value.null, Value.null => true
  | Value.bool a, Value.bool b => a == b
  | Value.num a, Value.num b => a == b
  | Value.str a, Value.str b => a == b
  | Value.arr xs, Value.arr ys => Value.beqList xs ys
  | Value.obj xs, Value.obj ys => Value.beqEntries xs ys
  | _, _ => false

/-- Deep equality on lists of JSON values. -/
def Value.beqList : List Value → List Value → Bool
  | [], [] => true
  | x :: xs, y :: ys => Value.beq x y && Value.beqList xs ys
  | _, _ => false

/-- Deep equality on object entry lists. -/
def Value.beqEntries : List (String × Value) → List (String × Value) → Bool
  | [], [] => true
  | (k1, v1) :: xs, (k2, v2) :: ys =>
      k1 == k2 && Value.beq v1 v2 && Value.beqEntries xs ys
  | _, _ => false

end

mutual

theorem Value.eq_of_beq : ∀ {a b : Value}, Value.beq a b = true → a = b
  | Value.null, Value.null, _ => rfl
  | Value.bool a, Value.bool b, h => by
      simp only [Value.beq, beq_iff_eq] at h; subst h; rfl
  | Value.num a, Value.num b, h => by
      simp only [Value.beq, beq_iff_eq] at h; subst h; rfl
  | Value.str a, Value.str b, h => by
      simp only [Value.beq, beq_iff_eq] at h; subst h; rfl
  | Value.arr xs, Value.arr ys, h => by
      rw [Value.eqList_of_beq (a := xs) (b := ys) h]
  | Value.obj xs, Value.obj ys, h => by
      rw [Value.eqEntries_of_beq (a := xs) (b := ys) h]

theorem Value.eqList_of_beq : ∀ {a b : List Value}, Value.beqList a b = true → a = b
  | [], [], _ => rfl
  | x :: xs, y :: ys, h => by
      simp only [Value.beqList, Bool.and_eq_true] at h
      rw [Value.eq_of_beq h.1, Value.eqList_of_beq h.2]

theorem Value.eqEntries_of_beq :
    ∀ {a b : List (String × Value)}, Value.beqEntries a b = true → a = b
  | [], [], _ => rfl
  | (k1, v1) :: xs, (k2, v2) :: ys, h => by
      simp only [Value.beqEntries, Bool.and_eq_true, beq_iff_eq] at h
      rw [h.1.1, Value.eq_of_beq h.1.2, Value.eqEntries_of_beq h.2]

end

mutual

theorem Value.beq_rfl : ∀ a : Value, Value.beq a a = true
  | Value.null => rfl
  | Value.bool a => by simp [Value.beq]
  | Value.num a => by simp [Value.beq]
  | Value.str a => by simp [Value.beq]
  | Value.arr xs => by simp [Value.beq, Value.beqList_rfl xs]
  | Value.obj xs => by simp [Value.beq, Value.beqEntries_rfl xs]

theorem Value.beqList_rfl : ∀ a : List Value, Value.beqList a a = true
  | [] => rfl
  | x :: xs => by simp [Value.beqList, Value.beq_rfl x, Value.beqList_rfl xs]

theorem Value.beqEntries_rfl : ∀ a : List (String × Value), Value.beqEntries a a = true
  | [] => rfl
  | (k, v) :: xs => by
      simp [Value.beqEntries, Value.beq_rfl v, Value.beqEntries_rfl xs]

end

instance : DecidableEq Value := fun a b =>
  if h : Value.beq a b = true then
    Decidable.isTrue (Value.eq_of_beq h)
  else
    Decidable.isFalse (fun he => h (he ▸ Value.beq_rfl a))

/-- The JSON type classifier codomain (util.rs `JsonType`). -/
inductive JsonType where
  | null
  | boolean
  | object
  | array
  | number
  | string
  | integer
deriving Repr, DecidableEq

/-- util.rs `JsonValueExt::get_type`: numbers with zero fractional part
(`n.trunc() == n`, i.e. denominator 1) classify as Integer. -/
def Value.getType : Value → JsonType
  | Value.null => JsonType.null
  | Value.bool _ => JsonType.boolean
  | Value.num q => if q.den = 1 then JsonType.integer else JsonType.number
  | Value.str _ => JsonType.string
  | Value.arr _ => JsonType.array
  | Value.obj _ => JsonType.object

/-- Key lookup in an object's entry list (serde_json `Map::get`; keys of a
real map are unique, so first match is the match). -/
def lookupObj : List (String × Value) → String → Option Value
  | [], _ => none
  | (k, v) :: rest, key => if k = key then some v else lookupObj rest key

/-- string.rs `Format`: the closed enum of string formats. -/
inductive Format where
  | dateTime
  | email
  | hostname
  | ipv4
  | ipv6
  | uri
deriving Repr, DecidableEq

/-- errors.rs `ErrorKind`: the violation taxonomy.  The regex payloads are
carried as their pattern text / message string. -/
inductive ErrorKind where
  | typeMismatch (expected found : JsonType)
  | tupleLengthMismatch (schemas tuple : Nat)
  | maxLength (expected found : Nat)
  | minLength (expected found : Nat)
  | missingProperty (prop : String)
  | arrayItemNotUnique
  | numberRange (bound value : Rat)
  | propertyCount (bound found : Nat)
  | invalidRegex (text : String)
  | invalidFormat (format : Format)
  | regexMismatch (regex : String)
deriving Repr, DecidableEq

/-- errors.rs `ValidationError`: a reason plus the offending node (a
borrowed pointer in Rust, modelled by the value itself). -/
structure ValidationError where
  reason : ErrorKind
  node : Value
deriving DecidableEq

/-- The collaborator capabilities the core calls but does not implement:
regex compilation (pattern to matcher or an error message) and the
format recognizers used by `Format::is_valid`. -/
structure Collab where
  regexCompile : String → Except String (String → Bool)
  dateTimeValid : String → Bool
  uriValid : String → Bool
  ipv4Valid : String → Bool
  ipv6Valid : String → Bool

/-- A collaborator instance whose regexes always compile and match and
whose recognizers accept everything; used to instantiate theorems at
concrete inputs. -/
def Collab.always : Collab :=
  ⟨fun _ => Except.ok (fun _ => true), fun _ => true, fun _ => true,
   fun _ => true, fun _ => true⟩

/-- string.rs `Format::is_valid`: date-time, uri, ipv4 and ipv6 dispatch to
the collaborator recognizers; every other format passes trivially. -/
def Format.isValid (c : Collab) : Format → String → Bool
  | Format.dateTime, input => c.dateTimeValid input
  | Format.uri, input => c.uriValid input
  | Format.ipv4, input => c.ipv4Valid input
  | Format.ipv6, input => c.ipv6Valid input
  | _, _ => true

/-- boolean.rs `BooleanSchema`: metadata only. -/
structure BooleanSchema where
  description : Option String
  id : Option String
  title : Option String
deriving DecidableEq

/-- integer.rs `IntegerSchema`: the range fields are carried but the
validator only type-checks. -/
structure IntegerSchema where
  description : Option String
  id : Option String
  title : Option String
  multipleOf : Option Rat
  minimum : Option Rat
  maximum : Option Rat
  exclusiveMinimum : Option Bool
  exclusiveMaximum : Option Bool
deriving DecidableEq

/-- number.rs `NumberSchema`. -/
structure NumberSchema where
  description : Option String
  id : Option String
  title : Option String
  multipleOf : Option Rat
  minimum : Option Rat
  maximum : Option Rat
  exclusiveMinimum : Option Bool
  exclusiveMaximum : Option Bool
deriving DecidableEq

/-- number.rs `Default` derive: all fields `None`. -/
def NumberSchema.defaultSchema : NumberSchema :=
  ⟨none, none, none, none, none, none, none, none⟩

/-- string.rs `StringSchema`; the pattern is carried as its source text. -/
structure StringSchema where
  description : Option String
  id : Option String
  title : Option String
  minLength : Option Nat
  maxLength : Option Nat
  pattern : Option String
  format : Option Format
deriving DecidableEq

/-- string.rs `Default` derive: all fields `None`. -/
def StringSchema.defaultSchema : StringSchema :=
  ⟨none, none, none, none, none, none, none⟩

mutual

/-- schema.rs `Schema`: the tagged union over all schema kinds.  The
`Empty` variant carries no data and `Reference` carries its pointer
string, as in reference.rs. -/
inductive Schema where
  | boolean (s : BooleanSchema) : Schema
  | object (s : ObjectSchema) : Schema
  | array (s : ArraySchema) : Schema
  | number (s : NumberSchema) : Schema
  | string (s : StringSchema) : Schema
  | integer (s : IntegerSchema) : Schema
  | empty : Schema
  | reference (ref : String) : Schema

/-- array.rs `ArraySchema` (a Rust struct; a one-constructor inductive
here because it nests `Schema`).  Field order follows the source. -/
inductive ArraySchema where
  | mk (description id title : Option String)
       (minItems maxItems : Option Nat)
       (uniqueItems : Option Bool)
       (allItemsSchema : Option Schema)
       (itemSchemas : Option (List Schema))
       (additionalItems : Option Bool) : ArraySchema

/-- object.rs `ObjectSchema` (property and pattern-property maps are
modelled as association lists). -/
inductive ObjectSchema where
  | mk (description id title : Option String)
       (propertySchemas : Option (List (String × Schema)))
       (additionalProperties : Option Bool)
       (required : Option (List String))
       (minProperties maxProperties : Option Nat)
       (patternProperties : Option (List (String × Schema))) : ObjectSchema

end

/-- Field accessor for array.rs `min_items`. -/
def ArraySchema.minItems : ArraySchema → Option Nat
  | ArraySchema.mk _ _ _ mi _ _ _ _ _ => mi

/-- Field accessor for array.rs `max_items`. -/
def ArraySchema.maxItems : ArraySchema → Option Nat
  | ArraySchema.mk _ _ _ _ ma _ _ _ _ => ma

/-- Field accessor for array.rs `unique_items`. -/
def ArraySchema.uniqueItems : ArraySchema → Option Bool
  | ArraySchema.mk _ _ _ _ _ ui _ _ _ => ui

/-- Field accessor for array.rs `all_items_schema`. -/
def ArraySchema.allItemsSchema : ArraySchema → Option Schema
  | ArraySchema.mk _ _ _ _ _ _ allS _ _ => allS

/-- Field accessor for array.rs `item_schemas`. -/
def ArraySchema.itemSchemas : ArraySchema → Option (List Schema)
  | ArraySchema.mk _ _ _ _ _ _ _ itemS _ => itemS

/-- Field accessor for array.rs `additional_items`. -/
def ArraySchema.additionalItems : ArraySchema → Option Bool
  | ArraySchema.mk _ _ _ _ _ _ _ _ addI => addI

/-- array.rs method `additional_items()`: `unwrap_or(false)`. -/
def ArraySchema.additionalItemsFlag (a : ArraySchema) : Bool :=
  a.additionalItems.getD false

/-- array.rs method `unique_items()`: `unwrap_or(false)`. -/
def ArraySchema.uniqueItemsFlag (a : ArraySchema) : Bool :=
  a.uniqueItems.getD false

/-- Field accessor for object.rs `property_schemas`. -/
def ObjectSchema.propertySchemas : ObjectSchema → Option (List (String × Schema))
  | ObjectSchema.mk _ _ _ ps _ _ _ _ _ => ps

/-- Field accessor for object.rs `additional_properties`. -/
def ObjectSchema.additionalProperties : ObjectSchema → Option Bool
  | ObjectSchema.mk _ _ _ _ ap _ _ _ _ => ap

/-- Field accessor for object.rs `required`. -/
def ObjectSchema.required : ObjectSchema → Option (List String)
  | ObjectSchema.mk _ _ _ _ _ req _ _ _ => req

/-- Field accessor for object.rs `min_properties`. -/
def ObjectSchema.minProperties : ObjectSchema → Option Nat
  | ObjectSchema.mk _ _ _ _ _ _ mi _ _ => mi

/-- Field accessor for object.rs `max_properties`. -/
def ObjectSchema.maxProperties : ObjectSchema → Option Nat
  | ObjectSchema.mk _ _ _ _ _ _ _ ma _ => ma

/-- Field accessor for object.rs `pattern_properties`. -/
def ObjectSchema.patternProperties : ObjectSchema → Option (List (String × Schema))
  | ObjectSchema.mk _ _ _ _ _ _ _ _ pp => pp

/-- object.rs method `additional_properties()`: `unwrap_or(false)`. -/
def ObjectSchema.additionalPropertiesFlag (o : ObjectSchema) : Bool :=
  o.additionalProperties.getD false

/-- number.rs method `exclusive_maximum()`: `unwrap_or(false)`. -/
def NumberSchema.exclusiveMaximumFlag (s : NumberSchema) : Bool :=
  s.exclusiveMaximum.getD false

/-- number.rs method `exclusive_minimum()`: `unwrap_or(false)`. -/
def NumberSchema.exclusiveMinimumFlag (s : NumberSchema) : Bool :=
  s.exclusiveMinimum.getD false

/-- Result of running a validator: the accumulated error list, or the
error branch when the run hits the `unimplemented!()` panic in
reference.rs. -/
abbrev VResult := Except Unit (List ValidationError)

/-- boolean.rs `BooleanSchema::validate_inner`: type check only. -/
def BooleanSchema.validateInner (_s : BooleanSchema) (value : Value) :
    List ValidationError :=
  match value with
  | Value.bool _ => []
  | _ => [⟨ErrorKind.typeMismatch JsonType.boolean value.getType, value⟩]

/-- integer.rs `IntegerSchema::validate_inner`: classifier check only;
range and multiple-of fields are never read. -/
def IntegerSchema.validateInner (_s : IntegerSchema) (value : Value) :
    List ValidationError :=
  match value.getType with
  | JsonType.integer => []
  | ty => [⟨ErrorKind.typeMismatch JsonType.integer ty, value⟩]

/-- number.rs: the minimum-bound out-of-bounds test exactly as written in
`validate_range`: `value < min` when `exclusive_minimum()` and
`value <= min` otherwise. -/
def NumberSchema.minOutOfBounds (s : NumberSchema) (value : Rat) : Bool :=
  match s.minimum with
  | some mn => if s.exclusiveMinimumFlag then value < mn else value ≤ mn
  | none => false

/-- number.rs: the maximum-bound out-of-bounds test exactly as written in
`validate_range`: `value > max` when `exclusive_maximum()` and
`value >= max` otherwise. -/
def NumberSchema.maxOutOfBounds (s : NumberSchema) (value : Rat) : Bool :=
  match s.maximum with
  | some mx => if s.exclusiveMaximumFlag then value > mx else value ≥ mx
  | none => false

/-- number.rs `NumberSchema::validate_range`: a mutable `bound` is set by
the minimum check, possibly overwritten by the maximum check, and at most
one `NumberRange` error is pushed at the end. -/
def NumberSchema.validateRange (s : NumberSchema) (node : Value) (value : Rat) :
    List ValidationError :=
  let bound1 : Option Rat := if s.minOutOfBounds value then s.minimum else none
  let bound2 : Option Rat := if s.maxOutOfBounds value then s.maximum else bound1
  match bound2 with
  | some b => [⟨ErrorKind.numberRange b value, node⟩]
  | none => []

/-- number.rs `NumberSchema::validate_inner`: any numeric value (integer
or not) is range-checked via `as_f64`; other values get a type mismatch. -/
def NumberSchema.validateInner (s : NumberSchema) (value : Value) :
    List ValidationError :=
  match value with
  | Value.num q => s.validateRange (Value.num q) q
  | _ => [⟨ErrorKind.typeMismatch JsonType.number value.getType, value⟩]

/-- string.rs `StringSchema::validate_string`: format, minLength,
maxLength and pattern checks run independently in that order.  Lengths
are `str::len()`, i.e. UTF-8 byte counts.  The maxLength check pushes a
`MinLength`-tagged error, as the source does. -/
def StringSchema.validateString (c : Collab) (s : StringSchema)
    (value : String) (node : Value) : List ValidationError :=
  let e1 := match s.format with
    | some f => if Format.isValid c f value then []
                else [⟨ErrorKind.invalidFormat f, node⟩]
    | none => []
  let e2 := match s.minLength with
    | some mn => if value.utf8ByteSize < mn then
                   [⟨ErrorKind.minLength mn value.utf8ByteSize, node⟩]
                 else []
    | none => []
  let e3 := match s.maxLength with
    | some mx => if value.utf8ByteSize > mx then
                   [⟨ErrorKind.minLength mx value.utf8ByteSize, node⟩]
                 else []
    | none => []
  let e4 := match s.pattern with
    | some re =>
        match c.regexCompile re with
        | Except.ok m => if m value then [] else [⟨ErrorKind.regexMismatch re, node⟩]
        | Except.error _ => [⟨ErrorKind.invalidRegex re, node⟩]
    | none => []
  e1 ++ e2 ++ e3 ++ e4

/-- string.rs `StringSchema::validate_inner`. -/
def StringSchema.validateInner (c : Collab) (s : StringSchema) (value : Value) :
    List ValidationError :=
  match value with
  | Value.str str => s.validateString c str (Value.str str)
  | _ => [⟨ErrorKind.typeMismatch JsonType.string value.getType, value⟩]

/-- array.rs `ArraySchema::validate_size`: minItems uses the MinLength
tag, maxItems the MaxLength tag, both may fire. -/
def ArraySchema.validateSize (a : ArraySchema) (array : List Value)
    (parent : Value) : List ValidationError :=
  let e1 := match a.minItems with
    | some mn => if array.length < mn then
                   [⟨ErrorKind.minLength mn array.length, parent⟩]
                 else []
    | none => []
  let e2 := match a.maxItems with
    | some mx => if array.length > mx then
                   [⟨ErrorKind.maxLength mx array.length, parent⟩]
                 else []
    | none => []
  e1 ++ e2

/-- array.rs `validate_unique` inner loops: scan the elements in order,
comparing each against every previously seen element; on the first
duplicate push one error and stop. -/
def uniqueScan (parent : Value) (seen : List Value) :
    List Value → List ValidationError
  | [] => []
  | item :: rest =>
      if seen.any (fun contained => Value.beq contained item) then
        [⟨ErrorKind.arrayItemNotUnique, parent⟩]
      else
        uniqueScan parent (seen ++ [item]) rest

/-- array.rs `ArraySchema::validate_unique`. -/
def ArraySchema.validateUnique (a : ArraySchema) (array : List Value)
    (parent : Value) : List ValidationError :=
  if a.uniqueItemsFlag then uniqueScan parent [] array else []

/-- object.rs `validate_required` loop body: one `MissingProperty` per
absent required name, in order. -/
def requiredLoop (entries : List (String × Value)) (parent : Value) :
    List String → List ValidationError
  | [] => []
  | prop :: rest =>
      (if (lookupObj entries prop).isNone then
         [⟨ErrorKind.missingProperty prop, parent⟩]
       else []) ++ requiredLoop entries parent rest

/-- object.rs `ObjectSchema::validate_required`. -/
def ObjectSchema.validateRequired (o : ObjectSchema)
    (entries : List (String × Value)) (parent : Value) : List ValidationError :=
  match o.required with
  | some req => requiredLoop entries parent req
  | none => []

/-- object.rs `ObjectSchema::validate_count`: min/max property count
checks against the object's key count, both may fire. -/
def ObjectSchema.validateCount (o : ObjectSchema)
    (entries : List (String × Value)) (parent : Value) : List ValidationError :=
  let e1 := match o.minProperties with
    | some mn => if entries.length < mn then
                   [⟨ErrorKind.propertyCount mn entries.length, parent⟩]
                 else []
    | none => []
  let e2 := match o.maxProperties with
    | some mx => if entries.length > mx then
                   [⟨ErrorKind.propertyCount mx entries.length, parent⟩]
                 else []
    | none => []
  e1 ++ e2

theorem ArraySchema.sizeOf_allItemsSchema_lt (a : ArraySchema) :
    sizeOf a.allItemsSchema < sizeOf a := by
  cases a with
  | mk d i t mi ma ui allS itemS addI =>
      simp [ArraySchema.allItemsSchema]
      omega

theorem ArraySchema.sizeOf_itemSchemas_lt (a : ArraySchema) {xs : List Schema}
    (h : a.itemSchemas = some xs) : sizeOf xs < sizeOf a := by
  cases a with
  | mk d i t mi ma ui allS itemS addI =>
      simp [ArraySchema.itemSchemas] at h
      subst h
      simp
      omega

theorem ObjectSchema.sizeOf_propertySchemas_lt (o : ObjectSchema)
    {xs : List (String × Schema)} (h : o.propertySchemas = some xs) :
    sizeOf xs < sizeOf o := by
  cases o with
  | mk d i t ps ap req mi ma pp =>
      simp [ObjectSchema.propertySchemas] at h
      subst h
      simp
      omega

theorem ObjectSchema.sizeOf_patternProperties_lt (o : ObjectSchema)
    {xs : List (String × Schema)} (h : o.patternProperties = some xs) :
    sizeOf xs < sizeOf o := by
  cases o with
  | mk d i t ps ap req mi ma pp =>
      simp [ObjectSchema.patternProperties] at h
      subst h
      simp
      omega

mutual

/-- schema.rs `impl SchemaBase for Schema`: exhaustive dispatch to the
per-kind validators.  The Reference arm is reference.rs
`validate_inner`, which first calls `resolve` — and `resolve` ends in
`unimplemented!()` on every path, so it panics (error branch). -/
def Schema.validateInner (c : Collab) (root : Schema) : Schema → Value → VResult
  | Schema.boolean s, value => Except.ok (s.validateInner value)
  | Schema.object s, value => ObjectSchema.validateInner c root s value
  | Schema.array s, value => ArraySchema.validateInner c root s value
  | Schema.number s, value => Except.ok (s.validateInner value)
  | Schema.string s, value => Except.ok (StringSchema.validateInner c s value)
  | Schema.integer s, value => Except.ok (s.validateInner value)
  | Schema.empty, _ => Except.ok []
  | Schema.reference _, _ => Except.error ()
termination_by s value => (sizeOf s, 0)

/-- array.rs `impl SchemaBase for ArraySchema`: size, all-items schema,
item schemas, uniqueness, in that order; non-arrays get a type
mismatch. -/
def ArraySchema.validateInner (c : Collab) (root : Schema) (a : ArraySchema)
    (value : Value) : VResult :=
  match value with
  | Value.arr array => do
      let e1 := a.validateSize array (Value.arr array)
      let e2 ← arrayAllItemsOpt c root a.allItemsSchema array
      let e3 ← ArraySchema.validateItemSchema c root a array (Value.arr array)
      let e4 := a.validateUnique array (Value.arr array)
      Except.ok (e1 ++ e2 ++ e3 ++ e4)
  | _ => Except.ok [⟨ErrorKind.typeMismatch JsonType.array value.getType, value⟩]
termination_by (sizeOf a, 4)
decreasing_by
  all_goals simp_wf
  all_goals first
    | exact Prod.Lex.left _ _ (ArraySchema.sizeOf_allItemsSchema_lt a)
    | decreasing_tactic

/-- array.rs `validate_all_items_schema`: the `if let Some(ref schema)`
guard. -/
def arrayAllItemsOpt (c : Collab) (root : Schema) :
    Option Schema → List Value → VResult
  | none, _ => Except.ok []
  | some schema, array => arrayAllItems c root schema array
termination_by os array => (sizeOf os, 3)

/-- array.rs `validate_all_items_schema` loop: every element is validated
against the one schema. -/
def arrayAllItems (c : Collab) (root : Schema) (schema : Schema) :
    List Value → VResult
  | [] => Except.ok []
  | v :: rest => do
      let e1 ← Schema.validateInner c root schema v
      let e2 ← arrayAllItems c root schema rest
      Except.ok (e1 ++ e2)
termination_by vs => (sizeOf schema, vs.length + 1)

/-- array.rs `ArraySchema::validate_item_schema`: in tuple mode, push one
`TupleLengthMismatch` when the lengths differ and `additional_items()` is
false, then validate the zipped pairs. -/
def ArraySchema.validateItemSchema (c : Collab) (root : Schema)
    (a : ArraySchema) (array : List Value) (parent : Value) : VResult :=
  match h : a.itemSchemas with
  | some schemas => do
      let head := if schemas.length ≠ array.length ∧ a.additionalItemsFlag = false
        then [⟨ErrorKind.tupleLengthMismatch schemas.length array.length, parent⟩]
        else []
      let rest ← validatePairs c root schemas array
      Except.ok (head ++ rest)
  | none => Except.ok []
termination_by (sizeOf a, 3)
decreasing_by
  all_goals simp_wf
  all_goals first
    | exact Prod.Lex.left _ _ (ArraySchema.sizeOf_itemSchemas_lt a h)
    | decreasing_tactic

/-- array.rs `schemas.iter().zip(array)` loop: pairwise validation up to
the shorter of the two lists. -/
def validatePairs (c : Collab) (root : Schema) :
    List Schema → List Value → VResult
  | [], _ => Except.ok []
  | _ :: _, [] => Except.ok []
  | schema :: ss, v :: vs => do
      let e1 ← Schema.validateInner c root schema v
      let e2 ← validatePairs c root ss vs
      Except.ok (e1 ++ e2)
termination_by ss vs => (sizeOf ss, 1)

/-- object.rs `impl SchemaBase for ObjectSchema`: properties, required,
count, pattern properties, in that order; non-objects get a type
mismatch. -/
def ObjectSchema.validateInner (c : Collab) (root : Schema) (o : ObjectSchema)
    (value : Value) : VResult :=
  match value with
  | Value.obj entries => do
      let e1 ← ObjectSchema.validateProperties c root o entries (Value.obj entries)
      let e2 := o.validateRequired entries (Value.obj entries)
      let e3 := o.validateCount entries (Value.obj entries)
      let e4 ← ObjectSchema.validatePatternProperties c root o entries (Value.obj entries)
      Except.ok (e1 ++ e2 ++ e3 ++ e4)
  | _ => Except.ok [⟨ErrorKind.typeMismatch JsonType.object value.getType, value⟩]
termination_by (sizeOf o, 4)

/-- object.rs `ObjectSchema::validate_properties`: the
`if let Some(ref schemas)` guard; the flag passed on is the
`additional_properties()` getter. -/
def ObjectSchema.validateProperties (c : Collab) (root : Schema)
    (o : ObjectSchema) (entries : List (String × Value)) (parent : Value) :
    VResult :=
  match h : o.propertySchemas with
  | some schemas => validateProps c root entries parent o.additionalPropertiesFlag schemas
  | none => Except.ok []
termination_by (sizeOf o, 3)
decreasing_by
  all_goals simp_wf
  all_goals first
    | exact Prod.Lex.left _ _ (ObjectSchema.sizeOf_propertySchemas_lt o h)
    | decreasing_tactic

/-- object.rs `validate_properties` loop over the (name, schema) pairs. -/
def validateProps (c : Collab) (root : Schema) (entries : List (String × Value))
    (parent : Value) (addl : Bool) : List (String × Schema) → VResult
  | [] => Except.ok []
  | (property, schema) :: rest => do
      let e1 ← propStep c root entries parent addl property schema
      let e2 ← validateProps c root entries parent addl rest
      Except.ok (e1 ++ e2)
termination_by l => (sizeOf l, 1)

/-- object.rs `validate_properties` loop body for one (name, schema)
pair: present properties are validated against the sub-schema; absent
ones yield `MissingProperty` exactly when `additional_properties()` is
false. -/
def propStep (c : Collab) (root : Schema) (entries : List (String × Value))
    (parent : Value) (addl : Bool) (property : String) (schema : Schema) :
    VResult :=
  match lookupObj entries property with
  | some v => Schema.validateInner c root schema v
  | none =>
      Except.ok (if addl then [] else [⟨ErrorKind.missingProperty property, parent⟩])
termination_by (sizeOf schema, 1)

/-- object.rs `ObjectSchema::validate_pattern_properties`: the
`if let Some(ref patterns)` guard. -/
def ObjectSchema.validatePatternProperties (c : Collab) (root : Schema)
    (o : ObjectSchema) (entries : List (String × Value)) (parent : Value) :
    VResult :=
  match h : o.patternProperties with
  | some patterns => patternLoop c root entries parent patterns
  | none => Except.ok []
termination_by (sizeOf o, 3)
decreasing_by
  all_goals simp_wf
  all_goals first
    | exact Prod.Lex.left _ _ (ObjectSchema.sizeOf_patternProperties_lt o h)
    | decreasing_tactic

/-- object.rs `validate_pattern_properties` loop: compile each pattern;
push `InvalidRegex` with the compile error message on failure, otherwise
validate every matching entry. -/
def patternLoop (c : Collab) (root : Schema) (entries : List (String × Value))
    (parent : Value) : List (String × Schema) → VResult
  | [] => Except.ok []
  | (pattern, schema) :: rest => do
      let e1 ← match c.regexCompile pattern with
        | Except.ok re => validateMatching c root re schema entries
        | Except.error e => Except.ok [⟨ErrorKind.invalidRegex e, parent⟩]
      let e2 ← patternLoop c root entries parent rest
      Except.ok (e1 ++ e2)
termination_by l => (sizeOf l, 1)

/-- object.rs `validate_pattern_properties` inner loop: every entry whose
key matches is validated against the pattern's schema. -/
def validateMatching (c : Collab) (root : Schema) (re : String → Bool)
    (schema : Schema) : List (String × Value) → VResult
  | [] => Except.ok []
  | (prop, v) :: rest => do
      let e1 ← if re prop then Schema.validateInner c root schema v else Except.ok []
      let e2 ← validateMatching c root re schema rest
      Except.ok (e1 ++ e2)
termination_by es => (sizeOf schema, es.length + 1)

end

/-- The outcome of schema.rs `validate_start`: `Ok(())`, `Err(errors)`, or
a panic (the process aborts before returning). -/
inductive VOutcome where
  | panic : VOutcome
  | ok : VOutcome
  | invalid (errors : List ValidationError) : VOutcome
deriving DecidableEq

/-- schema.rs `Schema::validate` via `validate_start`: the context root is
the schema itself; empty sink means success. -/
def Schema.validate (c : Collab) (s : Schema) (value : Value) : VOutcome :=
  match Schema.validateInner c s s value with
  | Except.error _ => VOutcome.panic
  | Except.ok errs => if errs.isEmpty then VOutcome.ok else VOutcome.invalid errs

/-- array.rs `ArraySchemaBuilder`: `unique_items` and `additional_items`
are plain bools in the builder. -/
structure ArraySchemaBuilder where
  description : Option String
  id : Option String
  title : Option String
  minItems : Option Nat
  maxItems : Option Nat
  uniqueItems : Bool
  allItemsSchema : Option Schema
  itemSchemas : Option (List Schema)
  additionalItems : Bool

/-- array.rs `impl Default for ArraySchemaBuilder`: everything default
except `additional_items: true`. -/
def ArraySchemaBuilder.defaultBuilder : ArraySchemaBuilder :=
  ⟨none, none, none, none, none, false, none, none, true⟩

/-- Builder setter `item_schemas`. -/
def ArraySchemaBuilder.withItemSchemas (b : ArraySchemaBuilder)
    (value : List Schema) : ArraySchemaBuilder :=
  ⟨b.description, b.id, b.title, b.minItems, b.maxItems, b.uniqueItems,
   b.allItemsSchema, some value, b.additionalItems⟩

/-- Builder setter `additional_items`. -/
def ArraySchemaBuilder.withAdditionalItems (b : ArraySchemaBuilder)
    (value : Bool) : ArraySchemaBuilder :=
  ⟨b.description, b.id, b.title, b.minItems, b.maxItems, b.uniqueItems,
   b.allItemsSchema, b.itemSchemas, value⟩

/-- array.rs `ArraySchemaBuilder::build`: wraps the bools in `Some`. -/
def ArraySchemaBuilder.build (b : ArraySchemaBuilder) : Schema :=
  Schema.array (ArraySchema.mk b.description b.id b.title b.minItems b.maxItems
    (some b.uniqueItems) b.allItemsSchema b.itemSchemas (some b.additionalItems))

/-- object.rs `ObjectSchemaBuilder`. -/
structure ObjectSchemaBuilder where
  description : Option String
  id : Option String
  title : Option String
  propertySchemas : Option (List (String × Schema))
  additionalProperties : Bool
  required : Option (List String)
  minProperties : Option Nat
  maxProperties : Option Nat
  patternProperties : Option (List (String × Schema))

/-- object.rs `impl Default for ObjectSchemaBuilder`: everything default
except `additional_properties: true`. -/
def ObjectSchemaBuilder.defaultBuilder : ObjectSchemaBuilder :=
  ⟨none, none, none, none, true, none, none, none, none⟩

/-- object.rs builder `add_property`: insert into the (possibly fresh)
property map. -/
def ObjectSchemaBuilder.addProperty (b : ObjectSchemaBuilder) (name : String)
    (schema : Schema) : ObjectSchemaBuilder :=
  let m := match b.propertySchemas with
    | some m => m ++ [(name, schema)]
    | none => [(name, schema)]
  ⟨b.description, b.id, b.title, some m, b.additionalProperties, b.required,
   b.minProperties, b.maxProperties, b.patternProperties⟩

/-- object.rs builder `required`. -/
def ObjectSchemaBuilder.withRequired (b : ObjectSchemaBuilder)
    (value : List String) : ObjectSchemaBuilder :=
  ⟨b.description, b.id, b.title, b.propertySchemas, b.additionalProperties,
   some value, b.minProperties, b.maxProperties, b.patternProperties⟩

/-- object.rs `ObjectSchemaBuilder::build`: wraps the bool in `Some`. -/
def ObjectSchemaBuilder.build (b : ObjectSchemaBuilder) : Schema :=
  Schema.object (ObjectSchema.mk b.description b.id b.title b.propertySchemas
    (some b.additionalProperties) b.required b.minProperties b.maxProperties
    b.patternProperties)

/-- The pairwise loop of array.rs `validate_item_schema`, phrased over the
already-zipped pair list; `validatePairs` is proved equal to it over
`List.zip`. -/
def zipValidate (c : Collab) (root : Schema) :
    List (Schema × Value) → VResult
  | [] => Except.ok []
  | (schema, v) :: rest => do
      let e1 ← Schema.validateInner c root schema v
      let e2 ← zipValidate c root rest
      Except.ok (e1 ++ e2)

/-- The Number schema of the spec example: minimum 0, maximum 100,
exclusiveMaximum true (de.rs carries the same schema in its test). -/
def c1Schema : NumberSchema :=
  ⟨none, none, none, none, some 0, some 100, none, some true⟩

/-- A Number schema violating both of its bound checks at value 5:
minimum 5 and maximum 5, both inclusive per the flags. -/
def c5Schema : NumberSchema :=
  ⟨none, none, none, none, some 5, some 5, none, none⟩

/-- A String schema with only maxLength 3 set. -/
def c6Schema : StringSchema := ⟨none, none, none, none, some 3, none, none⟩

/-- An Array schema in tuple mode with one item schema and
additionalItems explicitly false. -/
def c7Schema : ArraySchema :=
  ArraySchema.mk none none none none none none none (some [Schema.empty]) (some false)

/-- An Array schema with uniqueItems true and nothing else. -/
def c8Schema : ArraySchema :=
  ArraySchema.mk none none none none none (some true) none none none

/-- Two Number schemas differing only in multipleOf. -/
def c10SchemaA : NumberSchema :=
  ⟨none, none, none, some 2, some 1, none, none, none⟩

/-- Two Number schemas differing only in multipleOf. -/
def c10SchemaB : NumberSchema :=
  ⟨none, none, none, some 3, some 1, none, none, none⟩

/-- Builder-path tuple array schema: builder defaults plus one item
schema; `build` records `additionalItems = Some(true)`. -/
def c2ArrayBuilt : Schema :=
  (ArraySchemaBuilder.defaultBuilder.withItemSchemas [Schema.empty]).build

/-- Deserialization-path tuple array schema: the record produced by the
serde derive in array.rs for a schema text that sets only the item
schema list — every omitted `Option` field deserializes to `None`, in
particular `additional_items`. -/
def c2ArrayDeserialized : Schema :=
  Schema.array (ArraySchema.mk none none none none none none none
    (some [Schema.empty]) none)

/-- Builder-path object schema: builder defaults plus one named property;
`build` records `additionalProperties = Some(true)`. -/
def c2ObjectBuilt : Schema :=
  (ObjectSchemaBuilder.defaultBuilder.addProperty "a" Schema.empty).build

/-- Deserialization-path object schema: the serde record for a schema
text that sets only `propertySchemas`; the omitted
`additional_properties` deserializes to `None`. -/
def c2ObjectDeserialized : Schema :=
  Schema.object (ObjectSchema.mk none none none (some [("a", Schema.empty)])
    none none none none none)

/-- A root schema containing a same-document reference: an array whose
all-items schema is the reference `#` (the whole document). -/
def c3Root : Schema :=
  Schema.array (ArraySchema.mk none none none none none none
    (some (Schema.reference "#")) none none)

/-- C1: the claim states a NumberRange violation fires exactly when
v < minimum (exclusiveMinimum false) / v <= minimum (true), and
v > maximum (false) / v >= maximum (true), so that under
minimum 0, maximum 100, exclusiveMaximum true the value 100 fails with
NumberRange bound 100 and the value 0 passes.  The code has the two
comparison pairs attached to the opposite flag values: evaluating
number.rs validate_inner on that very schema shows the value 100
produces no violation at all and the value 0 fails with NumberRange
bound 0 value 0. -/
theorem c1_number_range_observed :
    NumberSchema.validateInner c1Schema (Value.num 100) = []
    ∧ NumberSchema.validateInner c1Schema (Value.num 0)
        = [⟨ErrorKind.numberRange 0 0, Value.num 0⟩] := by
  decide

/-- C5: validate_range pushes at most one NumberRange error, and when the
minimum-bound check and the maximum-bound check (in the code's own
out-of-bounds sense) both fire with a maximum set, the single reported
bound is the maximum, because the later maximum check overwrites the
bound chosen by the earlier minimum check. -/
theorem c5_number_range_tie_break (s : NumberSchema) (node : Value) (v : Rat) :
    (s.validateRange node v).length ≤ 1
    ∧ (∀ mx : Rat, s.maximum = some mx → s.minOutOfBounds v = true →
        s.maxOutOfBounds v = true →
        s.validateRange node v = [⟨ErrorKind.numberRange mx v, node⟩]) := by
  constructor
  · simp only [NumberSchema.validateRange]
    split <;> simp
  · intro mx hmx hmin hmax
    simp [NumberSchema.validateRange, hmin, hmax, hmx]

/-- C5 witness: minimum 5 and maximum 5, value 5 violates both checks and
yields the single maximum-bound error. -/
theorem c5_witness :
    NumberSchema.minOutOfBounds c5Schema 5 = true
    ∧ NumberSchema.maxOutOfBounds c5Schema 5 = true
    ∧ NumberSchema.validateRange c5Schema (Value.num 5) 5
        = [⟨ErrorKind.numberRange 5 5, Value.num 5⟩] :=
  ⟨by decide, by decide,
   (c5_number_range_tie_break c5Schema (Value.num 5) 5).2 5 rfl
     (by decide) (by decide)⟩

/-- C10: two Number schemas that agree on every field except multipleOf
produce identical validation output on every JSON value: the multipleOf
field is carried but never read by the validator. -/
theorem c10_multiple_of_never_read (s1 s2 : NumberSchema) (v : Value)
    (h1 : s1.description = s2.description) (h2 : s1.id = s2.id)
    (h3 : s1.title = s2.title) (h4 : s1.minimum = s2.minimum)
    (h5 : s1.maximum = s2.maximum)
    (h6 : s1.exclusiveMinimum = s2.exclusiveMinimum)
    (h7 : s1.exclusiveMaximum = s2.exclusiveMaximum) :
    NumberSchema.validateInner s1 v = NumberSchema.validateInner s2 v := by
  cases s1
  cases s2
  simp only at h1 h2 h3 h4 h5 h6 h7
  subst h1 h2 h3 h4 h5 h6 h7
  cases v <;>
    simp [NumberSchema.validateInner, NumberSchema.validateRange,
      NumberSchema.minOutOfBounds, NumberSchema.maxOutOfBounds,
      NumberSchema.exclusiveMinimumFlag, NumberSchema.exclusiveMaximumFlag]

/-- C10 witness: multipleOf 2 versus multipleOf 3, same bounds, same
outcome on the value 0. -/
theorem c10_witness :
    NumberSchema.validateInner c10SchemaA (Value.num 0)
      = NumberSchema.validateInner c10SchemaB (Value.num 0) :=
  c10_multiple_of_never_read c10SchemaA c10SchemaB (Value.num 0)
    rfl rfl rfl rfl rfl rfl rfl

/-- C3 amended: validation of a Reference schema never resolves or
delegates anywhere: reference.rs resolve ends in unimplemented on every
path, so validating any reference against any root panics for every
value (it never silently passes and never produces an error report). -/
theorem c3_reference_always_panics (c : Collab) (root : Schema) (r : String)
    (v : Value) :
    Schema.validateInner c root (Schema.reference r) v = Except.error () := by
  simp [Schema.validateInner]

/-- C3 counterexample: for the concrete same-document pointer reference
whose resolution target exists (the pointer is the whole document), the
claim predicts delegation to the root schema; the code instead panics,
which is neither the delegated result nor a reported schema-level
error. -/
theorem c3_counterexample :
    Schema.validateInner Collab.always c3Root (Schema.reference "#") Value.null
      = Except.error ()
    ∧ Schema.validateInner Collab.always c3Root (Schema.reference "#") Value.null
      ≠ Schema.validateInner Collab.always c3Root c3Root Value.null := by
  constructor
  · simp [Schema.validateInner]
  · have href : Schema.validateInner Collab.always c3Root
        (Schema.reference "#") Value.null = Except.error () := by
      simp [Schema.validateInner]
    have hroot : Schema.validateInner Collab.always c3Root c3Root Value.null
        = Except.ok [⟨ErrorKind.typeMismatch JsonType.array JsonType.null,
            Value.null⟩] := by
      simp [Schema.validateInner, c3Root, ArraySchema.validateInner,
        Value.getType]
    rw [href, hroot]
    simp

theorem validateString_reason_shape (c : Collab) (s : StringSchema)
    (str : String) (node : Value) :
    ∀ e ∈ StringSchema.validateString c s str node,
      (∃ f, e.reason = ErrorKind.invalidFormat f)
      ∨ (∃ x y, e.reason = ErrorKind.minLength x y)
      ∨ (∃ r, e.reason = ErrorKind.regexMismatch r)
      ∨ (∃ r, e.reason = ErrorKind.invalidRegex r) := by
  intro e he
  simp only [StringSchema.validateString, List.mem_append] at he
  rcases he with ((h | h) | h) | h
  · cases hf : s.format with
    | none => simp [hf] at h
    | some f =>
        simp only [hf] at h
        split_ifs at h with hv
        · simp at h
        · simp at h
          subst h
          exact Or.inl ⟨f, rfl⟩
  · cases hm : s.minLength with
    | none => simp [hm] at h
    | some mn =>
        simp only [hm] at h
        split_ifs at h with hv
        · simp at h
          subst h
          exact Or.inr (Or.inl ⟨mn, str.utf8ByteSize, rfl⟩)
        · simp at h
  · cases hx : s.maxLength with
    | none => simp [hx] at h
    | some mx =>
        simp only [hx] at h
        split_ifs at h with hv
        · simp at h
          subst h
          exact Or.inr (Or.inl ⟨mx, str.utf8ByteSize, rfl⟩)
        · simp at h
  · cases hp : s.pattern with
    | none => simp [hp] at h
    | some p =>
        simp only [hp] at h
        cases hcomp : c.regexCompile p with
        | ok m =>
            simp only [hcomp] at h
            split_ifs at h with hv
            · simp at h
            · simp at h
              subst h
              exact Or.inr (Or.inr (Or.inl ⟨p, rfl⟩))
        | error msg =>
            simp only [hcomp] at h
            simp at h
            subst h
            exact Or.inr (Or.inr (Or.inr ⟨p, rfl⟩))

/-- C6: when maxLength is set and the string's length exceeds it, the
pushed violation carries the MinLength reason tag — never MaxLength —
with expected the maxLength bound and found the string's length. -/
theorem c6_maxlength_reuses_minlength_tag (c : Collab) (s : StringSchema)
    (node : Value) (str : String) (mx : Nat)
    (hmx : s.maxLength = some mx) (hgt : str.utf8ByteSize > mx) :
    (⟨ErrorKind.minLength mx str.utf8ByteSize, node⟩
        ∈ StringSchema.validateString c s str node)
    ∧ (∀ e ∈ StringSchema.validateString c s str node,
        ∀ a b : Nat, e.reason ≠ ErrorKind.maxLength a b) := by
  constructor
  · simp [StringSchema.validateString, hmx, hgt]
  · intro e he a b
    rcases validateString_reason_shape c s str node e he with
      ⟨f, hr⟩ | ⟨x, y, hr⟩ | ⟨r, hr⟩ | ⟨r, hr⟩ <;> simp [hr]

/-- C6 witness: maxLength 3 against the four-byte string 1234 yields the
MinLength-tagged violation with expected 3 and found 4, and no
MaxLength-tagged violation exists. -/
theorem c6_witness :
    (⟨ErrorKind.minLength 3 4, Value.str "1234"⟩
        ∈ StringSchema.validateString Collab.always c6Schema "1234"
            (Value.str "1234"))
    ∧ (∀ e ∈ StringSchema.validateString Collab.always c6Schema "1234"
          (Value.str "1234"),
        ∀ a b : Nat, e.reason ≠ ErrorKind.maxLength a b) :=
  c6_maxlength_reuses_minlength_tag Collab.always c6Schema (Value.str "1234")
    "1234" 3 rfl (by decide)

/-- C9: with only maxLength set, the string check compares and reports the
UTF-8 byte count of the string, not its character count; the two-character
string of two U+00E4 letters has four UTF-8 bytes, so it violates
maxLength 3 even though its character count does not. -/
theorem c9_length_is_utf8_bytes (c : Collab) (s : StringSchema) (str : String)
    (node : Value) (mx : Nat) (hf : s.format = none) (hm : s.minLength = none)
    (hx : s.maxLength = some mx) (hp : s.pattern = none) :
    (StringSchema.validateString c s str node
       = if str.utf8ByteSize > mx then
           [⟨ErrorKind.minLength mx str.utf8ByteSize, node⟩]
         else [])
    ∧ "ää".length = 2 ∧ "ää".utf8ByteSize = 4 := by
  refine ⟨?_, by decide, by decide⟩
  simp only [StringSchema.validateString, hf, hm, hx, hp]
  split_ifs <;> simp

/-- C9 witness: the four-byte two-character string violates maxLength 3,
reporting found 4 (bytes), while its character count 2 would not. -/
theorem c9_witness :
    StringSchema.validateString Collab.always c6Schema "ää" (Value.str "ää")
      = [⟨ErrorKind.minLength 3 4, Value.str "ää"⟩]
    ∧ "ää".length = 2 := by
  have h := c9_length_is_utf8_bytes Collab.always c6Schema "ää"
    (Value.str "ää") 3 rfl rfl rfl rfl
  refine ⟨h.1.trans ?_, h.2.1⟩
  decide

theorem uniqueScan_nil_or_single (parent : Value) :
    ∀ (rest seen : List Value),
      uniqueScan parent seen rest = []
      ∨ uniqueScan parent seen rest = [⟨ErrorKind.arrayItemNotUnique, parent⟩]
  | [], _ => Or.inl rfl
  | item :: rest, seen => by
      simp only [uniqueScan]
      split_ifs
      · exact Or.inr rfl
      · exact uniqueScan_nil_or_single parent rest (seen ++ [item])

theorem uniqueScan_eq_nil_no_dup (parent : Value) :
    ∀ (rest seen : List Value), uniqueScan parent seen rest = [] →
      (∀ x ∈ seen, ∀ y ∈ rest, Value.beq x y = false)
      ∧ List.Pairwise (fun x y => Value.beq x y = false) rest
  | [], seen, _ => ⟨fun x _ y hy => absurd hy (List.not_mem_nil y), List.Pairwise.nil⟩
  | item :: rest, seen, h => by
      simp only [uniqueScan] at h
      split_ifs at h with hany
      have ih := uniqueScan_eq_nil_no_dup parent rest (seen ++ [item]) h
      have hseen : ∀ x ∈ seen, Value.beq x item = false := by
        intro x hx
        by_contra hne
        exact hany (List.any_eq_true.mpr ⟨x, hx, by
          cases hb : Value.beq x item
          · exact absurd hb hne
          · rfl⟩)
      refine ⟨?_, ?_⟩
      · intro x hx y hy
        rcases List.mem_cons.mp hy with hy | hy
        · subst hy; exact hseen x hx
        · exact ih.1 x (List.mem_append_left _ hx) y hy
      · refine List.Pairwise.cons ?_ ih.2
        intro y hy
        exact ih.1 item (List.mem_append_right _ (List.mem_singleton_self item)) y hy

/-- C8: with uniqueItems true, an array containing at least one
earlier-later pair of deep-equal elements yields exactly one
ArrayItemNotUnique violation — the scan stops at the first duplicate, so
the count is one no matter how many duplicate pairs exist. -/
theorem c8_unique_first_duplicate_only (a : ArraySchema) (array : List Value)
    (parent : Value) (hflag : a.uniqueItemsFlag = true)
    (hdup : ¬ List.Pairwise (fun x y => Value.beq x y = false) array) :
    a.validateUnique array parent = [⟨ErrorKind.arrayItemNotUnique, parent⟩] := by
  unfold ArraySchema.validateUnique
  rw [hflag]
  simp only [if_true]
  rcases uniqueScan_nil_or_single parent array [] with h | h
  · exact absurd (uniqueScan_eq_nil_no_dup parent array [] h).2 hdup
  · exact h

/-- C8 witness: the array 1, 1, 1 has three duplicate pairs and yields
exactly one ArrayItemNotUnique error. -/
theorem c8_witness :
    ArraySchema.validateUnique c8Schema [Value.num 1, Value.num 1, Value.num 1]
      (Value.arr [Value.num 1, Value.num 1, Value.num 1])
      = [⟨ErrorKind.arrayItemNotUnique,
          Value.arr [Value.num 1, Value.num 1, Value.num 1]⟩] :=
  c8_unique_first_duplicate_only c8Schema
    [Value.num 1, Value.num 1, Value.num 1]
    (Value.arr [Value.num 1, Value.num 1, Value.num 1]) (by decide) (by decide)

/-- C4: per (name, schema) pair, a present property is validated against
its sub-schema, an absent one yields MissingProperty exactly when the
additional-properties getter is false; and independently, every required
name absent from the object yields MissingProperty, with no dependence on
the additional-properties flag. -/
theorem c4_properties_and_required (c : Collab) (root : Schema)
    (entries : List (String × Value)) (parent : Value) (addl : Bool)
    (property : String) (schema : Schema) (req : List String) :
    (lookupObj entries property = none →
       propStep c root entries parent addl property schema =
         Except.ok (if addl then []
           else [⟨ErrorKind.missingProperty property, parent⟩]))
    ∧ (∀ v, lookupObj entries property = some v →
         propStep c root entries parent addl property schema
           = Schema.validateInner c root schema v)
    ∧ requiredLoop entries parent req
        = (req.filter (fun p => (lookupObj entries p).isNone)).map
            (fun p => ⟨ErrorKind.missingProperty p, parent⟩) := by
  refine ⟨?_, ?_, ?_⟩
  · intro h
    simp [propStep, h]
  · intro v h
    simp [propStep, h]
  · induction req with
    | nil => simp [requiredLoop]
    | cons p rest ih =>
        cases hlo : (lookupObj entries p).isNone <;>
          simp [requiredLoop, ih, hlo, List.filter_cons]

/-- C4 witness: object with only property a, schema pair for b with
additionalProperties false, required a and b: the absent named property b
yields MissingProperty, and the required check reports exactly the absent
name b. -/
theorem c4_witness :
    propStep Collab.always Schema.empty [("a", Value.null)]
      (Value.obj [("a", Value.null)]) false "b" Schema.empty
      = Except.ok [⟨ErrorKind.missingProperty "b", Value.obj [("a", Value.null)]⟩]
    ∧ requiredLoop [("a", Value.null)] (Value.obj [("a", Value.null)])
        ["a", "b"]
      = [⟨ErrorKind.missingProperty "b", Value.obj [("a", Value.null)]⟩] := by
  have h := c4_properties_and_required Collab.always Schema.empty
    [("a", Value.null)] (Value.obj [("a", Value.null)]) false "b" Schema.empty
    ["a", "b"]
  refine ⟨?_, h.2.2.trans (by decide)⟩
  have h1 := h.1 (by decide)
  simpa using h1

/-- C7: in tuple mode, exactly one TupleLengthMismatch with the two
lengths is prepended when the lengths differ and the additional-items
getter is false, and the result is otherwise exactly the pairwise
validation; the pairwise validation walks the zip of the schema list
with the element list, whose length is the minimum of the two lengths. -/
theorem c7_tuple_mode (c : Collab) (root : Schema) (a : ArraySchema)
    (array : List Value) (parent : Value) (schemas : List Schema)
    (h : a.itemSchemas = some schemas) :
    ((schemas.length ≠ array.length ∧ a.additionalItemsFlag = false) →
       ArraySchema.validateItemSchema c root a array parent
         = Except.map
             (fun rest =>
               ⟨ErrorKind.tupleLengthMismatch schemas.length array.length,
                 parent⟩ :: rest)
             (validatePairs c root schemas array))
    ∧ ((schemas.length = array.length ∨ a.additionalItemsFlag = true) →
       ArraySchema.validateItemSchema c root a array parent
         = validatePairs c root schemas array)
    ∧ validatePairs c root schemas array = zipValidate c root (schemas.zip array)
    ∧ (schemas.zip array).length = min schemas.length array.length := by
  have hunf : ArraySchema.validateItemSchema c root a array parent
      = (validatePairs c root schemas array).bind (fun rest =>
          Except.ok
            ((if schemas.length ≠ array.length ∧ a.additionalItemsFlag = false
              then [⟨ErrorKind.tupleLengthMismatch schemas.length array.length,
                parent⟩]
              else []) ++ rest)) := by
    simp only [ArraySchema.validateItemSchema]
    split
    · rename_i schemas2 heq
      rw [h] at heq
      injection heq with hh
      subst hh
      rfl
    · rename_i heq
      rw [h] at heq
      cases heq
  refine ⟨?_, ?_, ?_, ?_⟩
  · intro hc
    rw [hunf]
    cases hvp : validatePairs c root schemas array <;>
      simp [hvp, hc, Except.map, Except.bind]
  · intro hc
    have hnc : ¬ (schemas.length ≠ array.length ∧ a.additionalItemsFlag = false) := by
      rcases hc with hc | hc
      · intro hcon; exact hcon.1 hc
      · intro hcon; rw [hc] at hcon; simp at hcon
    rw [hunf]
    cases hvp : validatePairs c root schemas array <;>
      simp [hvp, hnc, Except.bind]
  · clear hunf h
    induction schemas generalizing array with
    | nil => cases array <;> simp [validatePairs, zipValidate, List.zip]
    | cons s ss ih =>
        cases array with
        | nil => simp [validatePairs, zipValidate]
        | cons v vs => simp [validatePairs, zipValidate, ih, List.zip_cons_cons, List.zip]
  · simp [List.length_zip]

/-- C7 witness: one item schema, zero elements, additionalItems false:
exactly one TupleLengthMismatch with lengths 1 and 0 is prepended to the
(empty) pairwise run. -/
theorem c7_witness :
    ArraySchema.validateItemSchema Collab.always Schema.empty c7Schema []
      (Value.arr [])
      = Except.map
          (fun rest =>
            ⟨ErrorKind.tupleLengthMismatch 1 0, Value.arr []⟩ :: rest)
          (validatePairs Collab.always Schema.empty [Schema.empty] []) :=
  (c7_tuple_mode Collab.always Schema.empty c7Schema [] (Value.arr [])
    [Schema.empty] rfl).1 ⟨by decide, rfl⟩

/-- C2 counterexample: the builder's array with default settings and one
item schema, versus the deserialized record for the same schema text with
additionalItems omitted: on the empty array document the first validates
successfully and the second reports a TupleLengthMismatch, so the two
construction paths do not produce identical validation outcomes. -/
theorem c2_counterexample :
    Schema.validate Collab.always c2ArrayBuilt (Value.arr [])
      ≠ Schema.validate Collab.always c2ArrayDeserialized (Value.arr []) := by
  have h1 : Schema.validate Collab.always c2ArrayBuilt (Value.arr [])
      = VOutcome.ok := by
    simp [Schema.validate, Schema.validateInner, ArraySchema.validateInner,
      c2ArrayBuilt, ArraySchemaBuilder.build, ArraySchemaBuilder.defaultBuilder,
      ArraySchemaBuilder.withItemSchemas, ArraySchema.validateSize,
      arrayAllItemsOpt, ArraySchema.validateItemSchema, validatePairs,
      ArraySchema.validateUnique, ArraySchema.itemSchemas,
      ArraySchema.allItemsSchema, ArraySchema.additionalItemsFlag,
      ArraySchema.additionalItems, ArraySchema.uniqueItemsFlag,
      ArraySchema.uniqueItems, ArraySchema.minItems, ArraySchema.maxItems,
      Except.bind, bind, pure, Except.pure]
  have h2 : Schema.validate Collab.always c2ArrayDeserialized (Value.arr [])
      = VOutcome.invalid [⟨ErrorKind.tupleLengthMismatch 1 0, Value.arr []⟩] := by
    simp [Schema.validate, Schema.validateInner, ArraySchema.validateInner,
      c2ArrayDeserialized, ArraySchema.validateSize,
      arrayAllItemsOpt, ArraySchema.validateItemSchema, validatePairs,
      ArraySchema.validateUnique, ArraySchema.itemSchemas,
      ArraySchema.allItemsSchema, ArraySchema.additionalItemsFlag,
      ArraySchema.additionalItems, ArraySchema.uniqueItemsFlag,
      ArraySchema.uniqueItems, ArraySchema.minItems, ArraySchema.maxItems,
      Except.bind, bind, pure, Except.pure]
  rw [h1, h2]
  simp

/-- C2 amended: the builder defaults set additionalItems and
additionalProperties to true, while the validator treats the omitted
fields of a deserialized schema as false, so the two construction paths
are not identical: for the concrete tuple array pair the built schema
accepts the empty array and the deserialized one rejects it, and for the
concrete object pair the built schema accepts the empty object and the
deserialized one reports the named property as missing. -/
theorem c2_builder_vs_deserialization_defaults :
    ArraySchemaBuilder.defaultBuilder.additionalItems = true
    ∧ ObjectSchemaBuilder.defaultBuilder.additionalProperties = true
    ∧ (ArraySchema.mk none none none none none none none
        (some [Schema.empty]) none).additionalItemsFlag = false
    ∧ (ObjectSchema.mk none none none (some [("a", Schema.empty)])
        none none none none none).additionalPropertiesFlag = false
    ∧ Schema.validate Collab.always c2ArrayBuilt (Value.arr []) = VOutcome.ok
    ∧ Schema.validate Collab.always c2ArrayDeserialized (Value.arr [])
        = VOutcome.invalid [⟨ErrorKind.tupleLengthMismatch 1 0, Value.arr []⟩]
    ∧ Schema.validate Collab.always c2ObjectBuilt (Value.obj []) = VOutcome.ok
    ∧ Schema.validate Collab.always c2ObjectDeserialized (Value.obj [])
        = VOutcome.invalid [⟨ErrorKind.missingProperty "a", Value.obj []⟩] := by
  refine ⟨rfl, rfl, rfl, rfl, ?_, ?_, ?_, ?_⟩
  · simp [Schema.validate, Schema.validateInner, ArraySchema.validateInner,
      c2ArrayBuilt, ArraySchemaBuilder.build, ArraySchemaBuilder.defaultBuilder,
      ArraySchemaBuilder.withItemSchemas, ArraySchema.validateSize,
      arrayAllItemsOpt, ArraySchema.validateItemSchema, validatePairs,
      ArraySchema.validateUnique, ArraySchema.itemSchemas,
      ArraySchema.allItemsSchema, ArraySchema.additionalItemsFlag,
      ArraySchema.additionalItems, ArraySchema.uniqueItemsFlag,
      ArraySchema.uniqueItems, ArraySchema.minItems, ArraySchema.maxItems,
      Except.bind, bind, pure, Except.pure]
  · simp [Schema.validate, Schema.validateInner, ArraySchema.validateInner,
      c2ArrayDeserialized, ArraySchema.validateSize,
      arrayAllItemsOpt, ArraySchema.validateItemSchema, validatePairs,
      ArraySchema.validateUnique, ArraySchema.itemSchemas,
      ArraySchema.allItemsSchema, ArraySchema.additionalItemsFlag,
      ArraySchema.additionalItems, ArraySchema.uniqueItemsFlag,
      ArraySchema.uniqueItems, ArraySchema.minItems, ArraySchema.maxItems,
      Except.bind, bind, pure, Except.pure]
  · simp [Schema.validate, Schema.validateInner, ObjectSchema.validateInner,
      c2ObjectBuilt, ObjectSchemaBuilder.build,
      ObjectSchemaBuilder.defaultBuilder, ObjectSchemaBuilder.addProperty,
      ObjectSchema.validateProperties, validateProps, propStep,
      ObjectSchema.validateRequired, ObjectSchema.validateCount,
      ObjectSchema.validatePatternProperties, patternLoop, validateMatching,
      requiredLoop, lookupObj, ObjectSchema.propertySchemas,
      ObjectSchema.additionalPropertiesFlag, ObjectSchema.additionalProperties,
      ObjectSchema.required, ObjectSchema.minProperties,
      ObjectSchema.maxProperties, ObjectSchema.patternProperties,
      Except.bind, bind, pure, Except.pure]
  · simp [Schema.validate, Schema.validateInner, ObjectSchema.validateInner,
      c2ObjectDeserialized,
      ObjectSchema.validateProperties, validateProps, propStep,
      ObjectSchema.validateRequired, ObjectSchema.validateCount,
      ObjectSchema.validatePatternProperties, patternLoop, validateMatching,
      requiredLoop, lookupObj, ObjectSchema.propertySchemas,
      ObjectSchema.additionalPropertiesFlag, ObjectSchema.additionalProperties,
      ObjectSchema.required, ObjectSchema.minProperties,
      ObjectSchema.maxProperties, ObjectSchema.patternProperties,
      Except.bind, bind, pure, Except.pure]
